import Mathlib

/-!
Verification of the BMW VIN decoder connector (`connector.py`).

The development shallow-embeds the connector's record-mapping core:

* `BMWSeriesEnum`, `BMWVehicleInfo` — the enumeration and dataclass of the
  source, with `to_record` as the dict projection.
* `BMWVinDecoder.decode_bmw_vin` — the decode path: network response →
  filtered attribute dictionary → `BMWVehicleInfo`.  Network I/O is embedded
  as an oracle `String → ApiResp (List DecodeItem)` mapping each VIN to the
  `Results` list of its HTTP response (or a transport/parse failure).
* `BMWVinDecoder.get_bmw_recalls`, `BMWVehicleSource.fetch_records` — the
  recall fetcher and the per-table sync loop, with the error log of the loop
  embedded explicitly (`FetchOut.errorLog` records the VINs whose iteration
  logged and skipped).
* Time is embedded by two string parameters: `classDefTime` is the
  `datetime.now().isoformat()` value captured once when the dataclass
  statement executed (Python evaluates a dataclass field default exactly
  once, at class-definition time), and `now` is the wall-clock reading at
  the current construction call.  The source never overrides the default,
  so `decoded_date` is always `classDefTime` and `now` is unused — this is
  the timestamp defect documented in the specification.

Python exceptions are embedded as the error type `PyErr`; each constructor
records which Python exception it stands for.
-/

set_option autoImplicit false

namespace BMWConnector

/-- Values that can appear in an emitted Fivetran record dict: Python
strings, ints, and `None`. -/
inductive PyVal where
  | str : String → PyVal
  | int : Int → PyVal
  | none : PyVal
  deriving Repr, DecidableEq

/-- Python exceptions that the decode/fetch paths can raise.
`validationError`/`prefixError` are the two `ValueError`s raised by
`_validate_bmw_vin` (the message is the Python message); `conversionError`
is the `ValueError` raised by `int()` on an unparseable literal;
`indexError` is the `IndexError` raised by an out-of-range string index;
`networkError` is `requests.exceptions.RequestException` (including
`raise_for_status`); `parseError` is `json.JSONDecodeError`. -/
inductive PyErr where
  | validationError : String → PyErr
  | prefixError : String → PyErr
  | conversionError : String → PyErr
  | indexError : PyErr
  | networkError : PyErr
  | parseError : PyErr
  deriving Repr, DecidableEq

/-- One element of the decode endpoint's `Results` list: a
`{Variable, Value}` pair. -/
structure DecodeItem where
  Variable : String
  Value : String
  deriving Repr, DecidableEq

/-- Outcome of one HTTP GET, as seen by the caller after
`raise_for_status()` and `response.json()`: either the parsed `Results`
payload, a transport/status failure, or a JSON parse failure. -/
inductive ApiResp (α : Type) where
  | ok : α → ApiResp α
  | netFail : ApiResp α
  | badJson : ApiResp α

/-- Contiguous-sublist test on character lists, by sliding the needle over
every suffix of the haystack. -/
def subListOf (needle : List Char) : List Char → Bool
  | [] => needle.isEmpty
  | c :: rest => needle.isPrefixOf (c :: rest) || subListOf needle rest

/-- Python's substring test `needle in hay` on strings. -/
def strContains (hay needle : String) : Bool :=
  subListOf needle.toList hay.toList

/-- Lookup in a Python dict represented as its insertion-ordered pair list:
for a repeated key the last assignment wins, absent keys give `none`. -/
def pyGet? (d : List (String × String)) (k : String) : Option String :=
  (d.reverse.find? (fun p => p.1 == k)).map (fun p => p.2)

/-- Python `d.get(k, dflt)` on a dict represented as its pair list. -/
def pyDictGet (d : List (String × String)) (k dflt : String) : String :=
  (pyGet? d k).getD dflt

/-- The filter of the dict comprehension at `connector.py:135`:
`if item['Value'] and item['Value'] != '0'` — keep a pair iff its value is
truthy (non-empty) and not the literal string `"0"`. -/
def filterResults (rs : List DecodeItem) : List DecodeItem :=
  rs.filter (fun it => it.Value ≠ "" ∧ it.Value ≠ "0")

/-- Lookup of variable `k` in the dict built by the comprehension at
`connector.py:135` from the (already filtered) item list: Python dict
semantics, so for a repeated `Variable` the last kept pair wins. -/
def dictGet (rs : List DecodeItem) (k : String) : Option String :=
  (rs.reverse.find? (fun it => it.Variable == k)).map (fun it => it.Value)

/-- `results.get(k, d)` as `decode_bmw_vin` performs it on the raw
`Results` list: filter, build the dict, look up with default. -/
def resultsGet (rs : List DecodeItem) (k d : String) : String :=
  (dictGet (filterResults rs) k).getD d

/-- Digit run of Python's `int()` grammar: a non-empty all-digit list,
read in base 10. -/
def digitsToNat? (cs : List Char) : Option Nat :=
  if cs = [] then none
  else if cs.all (fun c => c.isDigit) then
    some (cs.foldl (fun acc c => acc * 10 + (c.toNat - 48)) 0)
  else none

/-- Whitespace test used for the stripping that `int()` performs on its
argument. -/
def isSpaceChar (c : Char) : Bool :=
  c = ' ' || c = '\t' || c = '\n' || c = '\r'

/-- Strip leading and trailing whitespace from a character list. -/
def trimChars (cs : List Char) : List Char :=
  ((cs.dropWhile isSpaceChar).reverse.dropWhile isSpaceChar).reverse

/-- Python `int(s)` on a string: surrounding whitespace stripped, optional
sign, then a non-empty digit run; anything else raises `ValueError`
(returned here as `none`). -/
def pyInt? (s : String) : Option Int :=
  match trimChars s.toList with
  | [] => none
  | c :: rest =>
    if c = '+' then (digitsToNat? rest).map (fun n => (n : Int))
    else if c = '-' then (digitsToNat? rest).map (fun n => -(n : Int))
    else (digitsToNat? (c :: rest)).map (fun n => (n : Int))

/-- Enum for BMW Series classification (`connector.py:27`), constructors in
declaration order. -/
inductive BMWSeriesEnum where
  | SERIES_1
  | SERIES_2
  | SERIES_3
  | SERIES_4
  | SERIES_5
  | SERIES_6
  | SERIES_7
  | SERIES_8
  | SERIES_X
  | SERIES_M
  | SERIES_I
  | UNKNOWN
  deriving Repr, DecidableEq

/-- The string value of each enumeration member. -/
def BMWSeriesEnum.value : BMWSeriesEnum → String
  | .SERIES_1 => "1"
  | .SERIES_2 => "2"
  | .SERIES_3 => "3"
  | .SERIES_4 => "4"
  | .SERIES_5 => "5"
  | .SERIES_6 => "6"
  | .SERIES_7 => "7"
  | .SERIES_8 => "8"
  | .SERIES_X => "X"
  | .SERIES_M => "M"
  | .SERIES_I => "i"
  | .UNKNOWN => "Unknown"

/-- Iteration order of `for series in BMWSeriesEnum`: member declaration
order. -/
def seriesDeclOrder : List BMWSeriesEnum :=
  [.SERIES_1, .SERIES_2, .SERIES_3, .SERIES_4, .SERIES_5, .SERIES_6,
   .SERIES_7, .SERIES_8, .SERIES_X, .SERIES_M, .SERIES_I, .UNKNOWN]

/-- Data class for storing BMW vehicle information (`connector.py:42`).
`decoded_date` carries the string the dataclass default supplied. -/
structure BMWVehicleInfo where
  vin : String
  series : BMWSeriesEnum
  model_year : Int
  model_name : String
  body_type : String
  engine_type : String
  transmission : String
  drive_type : String
  manufacturing_plant : String
  production_date : Option String
  decoded_date : String
  deriving Repr, DecidableEq

/-- `BMWVehicleInfo.to_record` (`connector.py:57`): convert to a Fivetran
record dict. -/
def BMWVehicleInfo.to_record (v : BMWVehicleInfo) : List (String × PyVal) :=
  [("vin", .str v.vin),
   ("series", .str v.series.value),
   ("model_year", .int v.model_year),
   ("model_name", .str v.model_name),
   ("body_type", .str v.body_type),
   ("engine_type", .str v.engine_type),
   ("transmission", .str v.transmission),
   ("drive_type", .str v.drive_type),
   ("manufacturing_plant", .str v.manufacturing_plant),
   ("production_date", match v.production_date with
     | some s => .str s
     | Option.none => .none),
   ("decoded_date", .str v.decoded_date)]

namespace BMWVinDecoder

/-- `self._plant_codes` (`connector.py:78`), in source order. -/
def plant_codes : List (Char × String) :=
  [('A', "Greer, SC, USA"),
   ('B', "Dingolfing, Germany"),
   ('C', "Munich, Germany"),
   ('L', "Leipzig, Germany"),
   ('N', "Regensburg, Germany"),
   ('P', "Munich, Germany"),
   ('R', "Spartanburg, SC, USA"),
   ('U', "Rosslyn, South Africa"),
   ('W', "Born, Netherlands")]

/-- `self._plant_codes.get(c, 'Unknown')` (`connector.py:150`). -/
def plantGet (c : Char) : String :=
  ((plant_codes.find? (fun p => p.1 == c)).map (fun p => p.2)).getD "Unknown"

/-- The accepted BMW manufacturer codes (`connector.py:104`). -/
def bmw_prefix_list : List String := ["WBA", "WBS", "WBY", "4US"]

/-- `_validate_bmw_vin` (`connector.py:90`): raise on a non-17-character
VIN, raise on a manufacturer code outside the accepted set, otherwise
return `True`.  Pure: inspects only the VIN string. -/
def validate_bmw_vin (vin : String) : Except PyErr Bool :=
  if vin.length ≠ 17 then
    .error (.validationError "VIN must be 17 characters long")
  else if vin.take 3 ∉ bmw_prefix_list then
    .error (.prefixError "Not a valid BMW VIN prefix")
  else
    .ok true

/-- `_determine_bmw_series` (`connector.py:110`): first member in
enumeration declaration order whose value is a substring of the model name;
`UNKNOWN` when the loop finds no match. -/
def determine_bmw_series (model_name : String) : BMWSeriesEnum :=
  (seriesDeclOrder.find? (fun s => strContains model_name s.value)).getD .UNKNOWN

/-- `int(results.get('ModelYear', 0))` (`connector.py:144`) over the
filtered dict: absent key gives the integer default `0`; a present value is
parsed by `int()`, whose failure raises `ValueError`. -/
def modelYearOf (results : List DecodeItem) : Except PyErr Int :=
  match dictGet results "ModelYear" with
  | Option.none => .ok 0
  | some v =>
    match pyInt? v with
    | some n => .ok n
    | Option.none => .error (.conversionError v)

/-- `vin[11]` (`connector.py:150`): Python string indexing, raising
`IndexError` when the string is too short. -/
def vinChar11 (vin : String) : Except PyErr Char :=
  match vin.toList[11]? with
  | some c => .ok c
  | Option.none => .error .indexError

/-- `decode_bmw_vin` (`connector.py:117`) with the network embedded as the
oracle `api` (VIN ↦ outcome of the GET on the decode URL).  Validation is
commented out in the source, so none is performed here.  The keyword
arguments of the `BMWVehicleInfo(...)` call are evaluated left to right,
so the `int()` conversion of `ModelYear` happens before the `vin[11]`
index.  `classDefTime` is the dataclass-default timestamp (captured once at
class definition); `now` is the clock at this call and is unused by the
source. -/
def decode_bmw_vin (classDefTime now : String)
    (api : String → ApiResp (List DecodeItem)) (vin : String) :
    Except PyErr BMWVehicleInfo :=
  match api vin with
  | .netFail => .error .networkError
  | .badJson => .error .parseError
  | .ok raw =>
    let results := filterResults raw
    let model_name := (dictGet results "Model").getD "Unknown"
    let series := determine_bmw_series model_name
    match modelYearOf results with
    | .error e => .error e
    | .ok my =>
      match vinChar11 vin with
      | .error e => .error e
      | .ok c =>
        let _ := now
        .ok { vin := vin
              series := series
              model_year := my
              model_name := model_name
              body_type := (dictGet results "BodyClass").getD "Unknown"
              engine_type := (dictGet results "EngineConfiguration").getD "Unknown"
              transmission := (dictGet results "TransmissionStyle").getD "Unknown"
              drive_type := (dictGet results "DriveType").getD "Unknown"
              manufacturing_plant := plantGet c
              production_date := dictGet results "DateProduced"
              decoded_date := classDefTime }

/-- The decode URL (`connector.py:130`). -/
def decode_url (vin : String) : String :=
  "https://vpic.nhtsa.dot.gov/api/vehicles/decodevin/" ++ vin ++ "?format=json"

/-- `decode_bmw_vin` with the commented-out validation call
(`connector.py:128`) active, instrumented with the list of URLs actually
requested: validation runs before the GET, so a validation failure
propagates with no request issued. -/
def decode_bmw_vin_validated (classDefTime now : String)
    (api : String → ApiResp (List DecodeItem)) (vin : String) :
    Except PyErr BMWVehicleInfo × List String :=
  match validate_bmw_vin vin with
  | .error e => (.error e, [])
  | .ok _ => (decode_bmw_vin classDefTime now api vin, [decode_url vin])

/-- `get_bmw_recalls` (`connector.py:164`) with the network embedded as an
oracle carrying the `data.get('Results', [])` payload: each recall entry is
a raw dict (pair list). -/
def get_bmw_recalls (api : String → ApiResp (List (List (String × String))))
    (vin : String) : Except PyErr (List (List (String × String))) :=
  match api vin with
  | .ok rs => .ok rs
  | .netFail => .error .networkError
  | .badJson => .error .parseError

end BMWVinDecoder

namespace BMWVehicleSource

/-- Mapping of one raw recall dict to the emitted record
(`connector.py:239`). -/
def recall_to_record (vin : String) (entry : List (String × String)) :
    List (String × PyVal) :=
  [("vin", .str vin),
   ("campaign_number", .str (pyDictGet entry "CampaignNumber" "Unknown")),
   ("component", .str (pyDictGet entry "Component" "Unknown")),
   ("summary", .str (pyDictGet entry "Summary" "")),
   ("consequence", .str (pyDictGet entry "Consequence" "")),
   ("remedy", .str (pyDictGet entry "Remedy" "")),
   ("recall_date", .str (pyDictGet entry "ReportReceivedDate" ""))]

/-- Result of one `fetch_records` call: the collected records plus the
error log of the loop (`logger.error` at `connector.py:232` and `:250`
fires once per skipped VIN; the log here keeps the VIN of each entry, in
emission order). -/
structure FetchOut where
  records : List (List (String × PyVal))
  errorLog : List String
  deriving Repr, DecidableEq

/-- `fetch_records` (`connector.py:213`): per table, loop over the
configured VINs in order; on `"bmw_vehicles"` attempt a decode per VIN,
appending the record on success and logging-and-skipping on any exception;
on `"bmw_recalls"` attempt a recall fetch per VIN, appending one record per
entry; on any other table name, return the empty list without consulting
either oracle. -/
def fetch_records (classDefTime now : String)
    (api_decode : String → ApiResp (List DecodeItem))
    (api_recalls : String → ApiResp (List (List (String × String))))
    (vins : List String) (table_name : String) : FetchOut :=
  if table_name = "bmw_vehicles" then
    vins.foldl (fun acc vin =>
      match BMWVinDecoder.decode_bmw_vin classDefTime now api_decode vin with
      | .ok info => { acc with records := acc.records ++ [info.to_record] }
      | .error _ => { acc with errorLog := acc.errorLog ++ [vin] }) ⟨[], []⟩
  else if table_name = "bmw_recalls" then
    vins.foldl (fun acc vin =>
      match BMWVinDecoder.get_bmw_recalls api_recalls vin with
      | .ok recalls =>
          { acc with records := acc.records ++ recalls.map (recall_to_record vin) }
      | .error _ => { acc with errorLog := acc.errorLog ++ [vin] }) ⟨[], []⟩
  else ⟨[], []⟩

end BMWVehicleSource

/-- Explicit conditional chain equivalent of the enumeration loop: test
each member of the list in order, first substring match wins, `UNKNOWN`
after the list is exhausted. -/
def chainOf (name : String) : List BMWSeriesEnum → BMWSeriesEnum
  | [] => .UNKNOWN
  | s :: rest => if strContains name s.value then s else chainOf name rest

/-- The classification rule as the specification words it: test the codes
"1","2","3","4","5","6","7","8","X","M","i" for substring membership in
the model name, in that order, first match winning; `UNKNOWN` when none
matches. -/
def seriesSpecChain (name : String) : BMWSeriesEnum :=
  if strContains name "1" then .SERIES_1
  else if strContains name "2" then .SERIES_2
  else if strContains name "3" then .SERIES_3
  else if strContains name "4" then .SERIES_4
  else if strContains name "5" then .SERIES_5
  else if strContains name "6" then .SERIES_6
  else if strContains name "7" then .SERIES_7
  else if strContains name "8" then .SERIES_8
  else if strContains name "X" then .SERIES_X
  else if strContains name "M" then .SERIES_M
  else if strContains name "i" then .SERIES_I
  else .UNKNOWN

theorem find?_getD_eq_chainOf (name : String) (l : List BMWSeriesEnum) :
    (l.find? (fun s => strContains name s.value)).getD .UNKNOWN = chainOf name l := by
  induction l with
  | nil => rfl
  | cons s rest ih =>
    simp only [List.find?, chainOf]
    cases h : strContains name s.value
    · simpa [h] using ih
    · simp [h]

theorem chainOf_declOrder (name : String) :
    chainOf name seriesDeclOrder = seriesSpecChain name := by
  simp only [seriesDeclOrder, seriesSpecChain, chainOf, BMWSeriesEnum.value, ite_self]

/-- C4: series classification returns the first enumeration value, in
declaration order (1,2,3,4,5,6,7,8,X,M,i,Unknown), whose textual code is a
substring of the model name, and Unknown when no code is a substring; a
name containing "3" and "5" (and no earlier code) classifies as SERIES_3,
and "X3" classifies as SERIES_3 because "3" is declared before "X". -/
theorem C4_series_classification :
    (∀ name, BMWVinDecoder.determine_bmw_series name = seriesSpecChain name)
  ∧ BMWVinDecoder.determine_bmw_series "X3" = .SERIES_3
  ∧ BMWVinDecoder.determine_bmw_series "350" = .SERIES_3
  ∧ BMWVinDecoder.determine_bmw_series "ZZZ" = .UNKNOWN := by
  refine ⟨fun name => ?_, by decide, by decide, by decide⟩
  rw [BMWVinDecoder.determine_bmw_series, find?_getD_eq_chainOf, chainOf_declOrder]

/-- C2: the projection of the `Results` list performed by `decode_bmw_vin`
discards every pair whose value is empty or the literal "0": no lookup in
the filtered dict ever yields "" or "0", and when every pair for a key has
an empty/"0" value the lookup with default falls through to the default. -/
theorem C2_discard_rule (rs : List DecodeItem) (k d : String) :
    (∀ v, dictGet (filterResults rs) k = some v → v ≠ "" ∧ v ≠ "0")
  ∧ ((∀ it ∈ rs, it.Variable = k → it.Value = "" ∨ it.Value = "0") →
      resultsGet rs k d = d) := by
  constructor
  · intro v hv
    rw [dictGet] at hv
    cases hfind : (filterResults rs).reverse.find? (fun it => it.Variable == k) with
    | none => rw [hfind] at hv; simp at hv
    | some it =>
      rw [hfind] at hv
      simp only [Option.map_some', Option.some.injEq] at hv
      have hmem : it ∈ filterResults rs :=
        List.mem_reverse.mp (List.mem_of_find?_eq_some hfind)
      have hpred := List.of_mem_filter hmem
      simp only [decide_eq_true_eq] at hpred
      exact hv ▸ hpred
  · intro hall
    rw [resultsGet, dictGet]
    have hnone : (filterResults rs).reverse.find? (fun it => it.Variable == k) = none := by
      rw [List.find?_eq_none]
      intro it hit
      have hmem : it ∈ filterResults rs := List.mem_reverse.mp hit
      have hpred := List.of_mem_filter hmem
      simp only [decide_eq_true_eq] at hpred
      have hin : it ∈ rs := List.mem_of_mem_filter hmem
      simp only [beq_iff_eq]
      intro hk
      rcases hall it hin hk with hbad | hbad
      · exact hpred.1 hbad
      · exact hpred.2 hbad
    rw [hnone]
    rfl

/-- Witness for C2 at a concrete input: a `Results` list whose only
"BodyClass" pair carries the value "0" projects to the default
"Unknown". -/
theorem C2_discard_rule_witness :
    resultsGet [⟨"BodyClass", "0"⟩] "BodyClass" "Unknown" = "Unknown" :=
  (C2_discard_rule [⟨"BodyClass", "0"⟩] "BodyClass" "Unknown").2 (by decide)

/-- C1: the dataclass default of `decoded_date` is evaluated once, at
class-definition time, and `decode_bmw_vin` never overrides it — so two
decodes at different wall-clock instants ("t1" and "t2") both carry the
class-definition timestamp, and their `decoded_date` values are equal
rather than different as the claim requires. -/
theorem C1_shared_timestamp :
    (BMWVinDecoder.decode_bmw_vin "2025-01-01T00:00:00" "t1"
        (fun _ => .ok []) "WBAAAAAAAAAAAAAAA").map (fun v => v.decoded_date)
      = .ok "2025-01-01T00:00:00"
  ∧ (BMWVinDecoder.decode_bmw_vin "2025-01-01T00:00:00" "t2"
        (fun _ => .ok []) "WBAAAAAAAAAAAAAAA").map (fun v => v.decoded_date)
      = .ok "2025-01-01T00:00:00"
  ∧ ("t1" : String) ≠ "t2" := by
  refine ⟨rfl, rfl, by decide⟩

/-- C10: for any table name other than "bmw_vehicles" and "bmw_recalls",
`fetch_records` returns the empty record list and empty error log, and the
result does not depend on either network oracle (no decode or recall fetch
is attempted for any VIN). -/
theorem C10_unknown_table (classDefTime now : String)
    (api_d api_d2 : String → ApiResp (List DecodeItem))
    (api_r api_r2 : String → ApiResp (List (List (String × String))))
    (vins : List String) (t : String)
    (h1 : t ≠ "bmw_vehicles") (h2 : t ≠ "bmw_recalls") :
    BMWVehicleSource.fetch_records classDefTime now api_d api_r vins t = ⟨[], []⟩
  ∧ BMWVehicleSource.fetch_records classDefTime now api_d api_r vins t
      = BMWVehicleSource.fetch_records classDefTime now api_d2 api_r2 vins t := by
  rw [BMWVehicleSource.fetch_records, BMWVehicleSource.fetch_records]
  rw [if_neg h1, if_neg h2, if_neg h1, if_neg h2]
  exact ⟨rfl, rfl⟩

/-- C3: `fetch_records` for the vehicles table attempts a decode per VIN in
input order; a VIN whose decode raises is logged and skipped while the
others still produce their records in input order, so with VINs [A, B, C]
and B failing the output is exactly A's and C's records, in that order,
plus a log entry for B. -/
theorem C3_batch_isolation (classDefTime now : String)
    (api_d : String → ApiResp (List DecodeItem))
    (api_r : String → ApiResp (List (List (String × String))))
    (A B C : String) (ra rc : BMWVehicleInfo) (e : PyErr)
    (hA : BMWVinDecoder.decode_bmw_vin classDefTime now api_d A = .ok ra)
    (hB : BMWVinDecoder.decode_bmw_vin classDefTime now api_d B = .error e)
    (hC : BMWVinDecoder.decode_bmw_vin classDefTime now api_d C = .ok rc) :
    BMWVehicleSource.fetch_records classDefTime now api_d api_r [A, B, C] "bmw_vehicles"
      = ⟨[ra.to_record, rc.to_record], [B]⟩ := by
  simp [BMWVehicleSource.fetch_records, hA, hB, hC]

/-- Witness for C3: a concrete three-VIN batch whose middle decode hits a
network failure yields exactly the first and third records plus one log
entry. -/
theorem C3_batch_isolation_witness :
    BMWVehicleSource.fetch_records "T" "t"
      (fun v => if v = "B" then .netFail else .ok []) (fun _ => .ok [])
      ["WBAAAAAAAAAAAAAAA", "B", "WBYCCCCCCCCCCCCCC"] "bmw_vehicles"
      = ⟨[BMWVehicleInfo.to_record
            { vin := "WBAAAAAAAAAAAAAAA", series := .UNKNOWN, model_year := 0,
              model_name := "Unknown", body_type := "Unknown",
              engine_type := "Unknown", transmission := "Unknown",
              drive_type := "Unknown", manufacturing_plant := "Greer, SC, USA",
              production_date := Option.none, decoded_date := "T" },
          BMWVehicleInfo.to_record
            { vin := "WBYCCCCCCCCCCCCCC", series := .UNKNOWN, model_year := 0,
              model_name := "Unknown", body_type := "Unknown",
              engine_type := "Unknown", transmission := "Unknown",
              drive_type := "Unknown", manufacturing_plant := "Munich, Germany",
              production_date := Option.none, decoded_date := "T" }], ["B"]⟩ :=
  C3_batch_isolation "T" "t" (fun v => if v = "B" then .netFail else .ok [])
    (fun _ => .ok []) "WBAAAAAAAAAAAAAAA" "B" "WBYCCCCCCCCCCCCCC" _ _ .networkError
    rfl rfl rfl

/-- C5: when the filtered attribute dict has no ModelYear entry, decode
succeeds (given the VIN is long enough to index) with `model_year = 0`;
when a (necessarily non-empty, non-"0") ModelYear value is present but is
not parseable as an integer, decode propagates the `int()` conversion
failure to the caller instead of defaulting. -/
theorem C5_model_year (classDefTime now : String)
    (api : String → ApiResp (List DecodeItem)) (vin : String)
    (rs : List DecodeItem) (hapi : api vin = .ok rs) :
    (dictGet (filterResults rs) "ModelYear" = Option.none →
      ∀ ch, vin.toList[11]? = some ch →
      ∃ info, BMWVinDecoder.decode_bmw_vin classDefTime now api vin = .ok info
        ∧ info.model_year = 0)
  ∧ (∀ v, dictGet (filterResults rs) "ModelYear" = some v →
      pyInt? v = Option.none →
      BMWVinDecoder.decode_bmw_vin classDefTime now api vin
        = .error (.conversionError v)) := by
  constructor
  · intro hmy ch hch
    simp only [BMWVinDecoder.decode_bmw_vin, hapi, BMWVinDecoder.modelYearOf, hmy,
      BMWVinDecoder.vinChar11, hch]
    exact ⟨_, rfl, rfl⟩
  · intro v hv hparse
    simp only [BMWVinDecoder.decode_bmw_vin, hapi, BMWVinDecoder.modelYearOf, hv,
      hparse]

/-- Witness for C5: a response whose ModelYear is the unparseable string
"MCMXCIX" makes decode fail with the conversion error. -/
theorem C5_model_year_witness :
    BMWVinDecoder.decode_bmw_vin "T" "t"
      (fun _ => .ok [⟨"ModelYear", "MCMXCIX"⟩]) "WBAAAAAAAAAAAAAAA"
      = .error (.conversionError "MCMXCIX") :=
  (C5_model_year "T" "t" (fun _ => .ok [⟨"ModelYear", "MCMXCIX"⟩])
    "WBAAAAAAAAAAAAAAA" [⟨"ModelYear", "MCMXCIX"⟩] rfl).2
    "MCMXCIX" (by decide) rfl

/-- C6: an empty `Results` list from the recall endpoint yields zero
records for that VIN and a non-empty list yields exactly one record per
entry; each field of the record defaults independently — the empty raw
entry gets every default, and an entry carrying only "Component" keeps its
component while every other field still defaults. -/
theorem C6_recall_mapping (classDefTime now : String)
    (api_d : String → ApiResp (List DecodeItem))
    (api_r : String → ApiResp (List (List (String × String))))
    (vin : String) (entries : List (List (String × String)))
    (h : api_r vin = .ok entries) :
    (BMWVehicleSource.fetch_records classDefTime now api_d api_r [vin] "bmw_recalls").records
        = entries.map (BMWVehicleSource.recall_to_record vin)
  ∧ (entries = [] →
      (BMWVehicleSource.fetch_records classDefTime now api_d api_r [vin] "bmw_recalls").records
        = [])
  ∧ BMWVehicleSource.recall_to_record vin []
      = [("vin", .str vin), ("campaign_number", .str "Unknown"),
         ("component", .str "Unknown"), ("summary", .str ""),
         ("consequence", .str ""), ("remedy", .str ""), ("recall_date", .str "")]
  ∧ (∀ comp, BMWVehicleSource.recall_to_record vin [("Component", comp)]
      = [("vin", .str vin), ("campaign_number", .str "Unknown"),
         ("component", .str comp), ("summary", .str ""),
         ("consequence", .str ""), ("remedy", .str ""), ("recall_date", .str "")]) := by
  refine ⟨?_, ?_, rfl, fun comp => rfl⟩
  · simp [BMWVehicleSource.fetch_records, BMWVinDecoder.get_bmw_recalls, h]
  · intro he
    subst he
    simp [BMWVehicleSource.fetch_records, BMWVinDecoder.get_bmw_recalls, h]

/-- Witness for C6: one recall entry carrying only a campaign number maps
to exactly one record with the other fields defaulted. -/
theorem C6_recall_mapping_witness :
    (BMWVehicleSource.fetch_records "T" "t" (fun _ => .netFail)
      (fun _ => .ok [[("CampaignNumber", "24V123")]]) ["WBAAAAAAAAAAAAAAA"]
      "bmw_recalls").records
      = [[("vin", .str "WBAAAAAAAAAAAAAAA"), ("campaign_number", .str "24V123"),
          ("component", .str "Unknown"), ("summary", .str ""),
          ("consequence", .str ""), ("remedy", .str ""), ("recall_date", .str "")]] :=
  (C6_recall_mapping "T" "t" (fun _ => .netFail)
    (fun _ => .ok [[("CampaignNumber", "24V123")]]) "WBAAAAAAAAAAAAAAA"
    [[("CampaignNumber", "24V123")]] rfl).1

/-- C7: for a successfully decoded VIN, `manufacturing_plant` is the
plant-code table lookup of the VIN character at 0-indexed position 11;
the table maps 'C' to "Munich, Germany" and has no entry for 'Z', which
therefore falls to "Unknown". -/
theorem C7_plant_lookup (classDefTime now vin : String)
    (api : String → ApiResp (List DecodeItem)) (rs : List DecodeItem)
    (ch : Char) (my : Int)
    (hapi : api vin = .ok rs)
    (hch : vin.toList[11]? = some ch)
    (hmy : BMWVinDecoder.modelYearOf (filterResults rs) = .ok my) :
    (∃ info, BMWVinDecoder.decode_bmw_vin classDefTime now api vin = .ok info
        ∧ info.manufacturing_plant = BMWVinDecoder.plantGet ch)
  ∧ BMWVinDecoder.plantGet 'C' = "Munich, Germany"
  ∧ BMWVinDecoder.plantGet 'Z' = "Unknown" := by
  refine ⟨?_, by decide, by decide⟩
  simp only [BMWVinDecoder.decode_bmw_vin, hapi, hmy, BMWVinDecoder.vinChar11, hch]
  exact ⟨_, rfl, rfl⟩

/-- Witness for C7: a VIN with 'C' at position 11 decodes to a record whose
plant is the 'C' lookup, i.e. "Munich, Germany". -/
theorem C7_plant_lookup_witness :
    (∃ info, BMWVinDecoder.decode_bmw_vin "T" "t" (fun _ => .ok [])
        "WBYCCCCCCCCCCCCCC" = .ok info
      ∧ info.manufacturing_plant = BMWVinDecoder.plantGet 'C')
  ∧ BMWVinDecoder.plantGet 'C' = "Munich, Germany"
  ∧ BMWVinDecoder.plantGet 'Z' = "Unknown" :=
  C7_plant_lookup "T" "t" "WBYCCCCCCCCCCCCCC" (fun _ => .ok []) [] 'C' 0
    rfl (by decide) rfl

/-- C8: the VIN validator rejects every string that is not exactly 17
characters with the length `ValueError`, rejects every 17-character string
whose first three characters are outside {WBA, WBS, WBY, 4US} with the
bad-manufacturer `ValueError`, and in both cases the validation-enabled
decode path propagates the error having issued no network request. -/
theorem C8_validation (classDefTime now vin : String)
    (api : String → ApiResp (List DecodeItem)) :
    (vin.length ≠ 17 →
      BMWVinDecoder.validate_bmw_vin vin
          = .error (.validationError "VIN must be 17 characters long")
      ∧ BMWVinDecoder.decode_bmw_vin_validated classDefTime now api vin
          = (.error (.validationError "VIN must be 17 characters long"), []))
  ∧ (vin.length = 17 →
      vin.take 3 ∉ BMWVinDecoder.bmw_prefix_list →
      BMWVinDecoder.validate_bmw_vin vin
          = .error (.prefixError "Not a valid BMW VIN prefix")
      ∧ BMWVinDecoder.decode_bmw_vin_validated classDefTime now api vin
          = (.error (.prefixError "Not a valid BMW VIN prefix"), [])) := by
  constructor
  · intro h
    have hv : BMWVinDecoder.validate_bmw_vin vin
        = .error (.validationError "VIN must be 17 characters long") := by
      simp only [BMWVinDecoder.validate_bmw_vin]
      rw [if_pos h]
    exact ⟨hv, by simp only [BMWVinDecoder.decode_bmw_vin_validated, hv]⟩
  · intro h17 hpre
    have hv : BMWVinDecoder.validate_bmw_vin vin
        = .error (.prefixError "Not a valid BMW VIN prefix") := by
      simp only [BMWVinDecoder.validate_bmw_vin]
      rw [if_neg (by simp [h17]), if_pos hpre]
    exact ⟨hv, by simp only [BMWVinDecoder.decode_bmw_vin_validated, hv]⟩

/-- Witness for C8: the 5-character string "SHORT" fails the length check
and the 17-character string "ZZZ88888888888888" fails the manufacturer
check, both with no request issued. -/
theorem C8_validation_witness :
    (BMWVinDecoder.validate_bmw_vin "SHORT"
        = .error (.validationError "VIN must be 17 characters long")
      ∧ BMWVinDecoder.decode_bmw_vin_validated "T" "t" (fun _ => .netFail) "SHORT"
        = (.error (.validationError "VIN must be 17 characters long"), []))
  ∧ (BMWVinDecoder.validate_bmw_vin "ZZZ88888888888888"
        = .error (.prefixError "Not a valid BMW VIN prefix")
      ∧ BMWVinDecoder.decode_bmw_vin_validated "T" "t" (fun _ => .netFail)
          "ZZZ88888888888888"
        = (.error (.prefixError "Not a valid BMW VIN prefix"), [])) :=
  ⟨(C8_validation "T" "t" "SHORT" (fun _ => .netFail)).1 (by decide),
   (C8_validation "T" "t" "ZZZ88888888888888" (fun _ => .netFail)).2
     (by decide) (by decide)⟩

/-- C9 (amended): for every VIN shorter than 12 characters, when the decode
endpoint responds successfully with a well-formed `Results` list whose
(post-discard) ModelYear is absent or integer-parseable, decode raises the
out-of-range `IndexError` from the unguarded `vin[11]` plant lookup and
returns no record.  (The original claim, quantifying over all well-formed
responses, fails: an unparseable ModelYear raises the `int()` conversion
error first, because the keyword arguments are evaluated left to right —
see the counterexample.) -/
theorem C9_short_vin_index (classDefTime now : String)
    (api : String → ApiResp (List DecodeItem)) (vin : String)
    (rs : List DecodeItem) (my : Int)
    (hlen : vin.length < 12) (hapi : api vin = .ok rs)
    (hmy : BMWVinDecoder.modelYearOf (filterResults rs) = .ok my) :
    BMWVinDecoder.decode_bmw_vin classDefTime now api vin = .error .indexError := by
  have hnone : vin.toList[11]? = Option.none := by
    apply List.getElem?_eq_none
    have he : vin.toList.length = vin.length := rfl
    omega
  simp only [BMWVinDecoder.decode_bmw_vin, hapi, hmy, BMWVinDecoder.vinChar11, hnone]

/-- Witness for C9 (amended): the 1-character VIN "A" with an empty
`Results` list decodes to the `IndexError`. -/
theorem C9_short_vin_index_witness :
    BMWVinDecoder.decode_bmw_vin "T" "t" (fun _ => .ok []) "A"
      = .error .indexError :=
  C9_short_vin_index "T" "t" (fun _ => .ok []) "A" [] 0 (by decide) rfl rfl

/-- Counterexample to C9 as stated: the 1-character VIN "A" with the
well-formed response `[{ModelYear, "abc"}]` makes decode raise the `int()`
conversion `ValueError`, not an out-of-range indexing error, because the
`int()` conversion of the `model_year` keyword argument is evaluated
before the `vin[11]` index. -/
theorem C9_conversion_first :
    BMWVinDecoder.decode_bmw_vin "T" "t"
        (fun _ => .ok [⟨"ModelYear", "abc"⟩]) "A"
      = .error (.conversionError "abc")
  ∧ PyErr.conversionError "abc" ≠ PyErr.indexError
  ∧ ("A" : String).length < 12 := by
  exact ⟨rfl, by decide, by decide⟩

/-- Witness for C10 at a concrete input: the table "crypto" with one VIN
yields no records and no log entries. -/
theorem C10_unknown_table_witness :
    BMWVehicleSource.fetch_records "T" "t" (fun _ => .netFail) (fun _ => .netFail)
      ["WBAAAAAAAAAAAAAAA"] "crypto" = ⟨[], []⟩ :=
  (C10_unknown_table "T" "t" (fun _ => .netFail) (fun _ => .netFail)
    (fun _ => .netFail) (fun _ => .netFail) ["WBAAAAAAAAAAAAAAA"] "crypto"
    (by decide) (by decide)).1

end BMWConnector
